import Mathlib

/-!
Verification of the TLS record/state-machine engine of this repository.

The Rust sources are shallowly embedded:
* `src/kernel/src/tls/buffer.rs`   -> `TlsBuffer` and its operations
* `src/kernel/src/tls/constant.rs` -> the header/size constants
* `src/kernel/src/tls/error.rs`    -> `TlsError`
* `src/kernel/src/tls/connection.rs` -> `Conn`, `tls_state_machine_advance`,
  `read_tls`, `write_tls`, `recv_record_over_vsock`
* `src/kernel/src/tls/crypto_provider/aead.rs` -> the AEAD adapter

Bytes are modelled as `Nat` (values `< 256` where it matters); Rust `usize`
arithmetic on indices never overflows in these code paths, so plain `Nat`
arithmetic is used.  Fallible Rust methods on `&mut self` are modelled as
state-passing functions returning the post state together with an
`Option TlsError` (`none` = `Ok`), so that mutations performed before a
failure are kept, exactly as in Rust.  External collaborators (the rustls
engine, the vsock transport, the aes-gcm primitive) are modelled as oracle
inputs, since the repository only consumes their interfaces.
-/

namespace SvsmTls

/-- Error type, from `src/kernel/src/tls/error.rs`. -/
inductive TlsError where
  | HandshakeFailed
  | InvalidMessage
  | InvalidCertificate
  | EncryptError
  | DecryptError
  | NoCertificates
  | UnsupportedNameType
  | GenericError
  | ConnectionClosed
  | InvalidDnsName
  | EncodeError
  | EarlyDataError
  | FailedToGetRandomBytes
  | MaxIterationsReached
  | HandshakeNotComplete
  | UnexpectedState
  | BufferTooSmall
  | IncompleteRead
  | PeerClosed
  | RequestAlreadySent
  | ConnectionAlreadyClosed
deriving DecidableEq, Repr

/-- Model of `HEADER_LEN`, from `src/kernel/src/tls/constant.rs`. -/
def HEADER_LEN : Nat := 5

/-- Model of `FIRST_LEN_BYTE_POS`, from `src/kernel/src/tls/constant.rs`. -/
def FIRST_LEN_BYTE_POS : Nat := 4

/-- Model of `SECOND_LEN_BYTE_POS`, from `src/kernel/src/tls/constant.rs`. -/
def SECOND_LEN_BYTE_POS : Nat := 3

/-- Model of `CONTENT_TYPE` (size of the TLS ContentType field), from `constant.rs`. -/
def CONTENT_TYPE : Nat := 1

/-- Model of `AEAD_OVERHEAD`, from `constant.rs`. -/
def AEAD_OVERHEAD : Nat := 16 + CONTENT_TYPE

/-- Model of `IN_BUF_SIZE`, from `constant.rs`. -/
def IN_BUF_SIZE : Nat := 16 * 1024 + AEAD_OVERHEAD + HEADER_LEN

/-- Model of `OUT_BUF_SIZE`, from `constant.rs`. -/
def OUT_BUF_SIZE : Nat := 1024

/-- The record buffer, from `src/kernel/src/tls/buffer.rs`.
`buf` is the fixed backing storage (`Vec<u8>` of fixed length), `head` the
first valid unconsumed byte, `tail` the first free byte. -/
structure TlsBuffer where
  buf : List Nat
  head : Nat
  tail : Nat
deriving DecidableEq, Repr

/-- Model of `TlsBuffer::new(size)`: zero-filled storage, `head = tail = 0`. -/
def TlsBuffer.new (size : Nat) : TlsBuffer :=
  { buf := List.replicate size 0, head := 0, tail := 0 }

/-- Capacity of the buffer: `self.buf.len()` (the Vec is never resized). -/
def TlsBuffer.capacity (b : TlsBuffer) : Nat := b.buf.length

/-- Model of `curr_used_buf_as_ref` / `curr_used_buf_as_mut`: the slice
`&self.buf[self.head..self.tail]`. -/
def TlsBuffer.curr_used_buf_as_ref (b : TlsBuffer) : List Nat :=
  (b.buf.drop b.head).take (b.tail - b.head)

/-- The bounds check performed by `mutable_slice_from_remaining(size)`:
`some` error iff `self.tail + size > self.buf.len()`; on success the method
returns the slice `[tail, tail+size)`, modelled separately by `writeFree`. -/
def TlsBuffer.mutable_slice_check (b : TlsBuffer) (size : Nat) : Option TlsError :=
  if b.tail + size > b.buf.length then some .BufferTooSmall else none

/-- Model of `extract_record_len_from_current_position`, from `buffer.rs`:
fails if `tail + HEADER_LEN > buf.len()`, otherwise returns
`(buf[tail + SECOND_LEN_BYTE_POS] << 8) | buf[tail + FIRST_LEN_BYTE_POS]`. -/
def TlsBuffer.extract_record_len_from_current_position (b : TlsBuffer) :
    Except TlsError Nat :=
  if b.tail + HEADER_LEN > b.buf.length then .error .BufferTooSmall
  else .ok (((b.buf.getD (b.tail + SECOND_LEN_BYTE_POS) 0) <<< 8) |||
            (b.buf.getD (b.tail + FIRST_LEN_BYTE_POS) 0))

/-- Model of `advance_used(n)`, from `buffer.rs`: fails (state unchanged) if
`tail + n > buf.len()`, otherwise `tail += n`. -/
def TlsBuffer.advance_used (b : TlsBuffer) (n : Nat) : TlsBuffer × Option TlsError :=
  if b.tail + n > b.buf.length then (b, some .BufferTooSmall)
  else ({ b with tail := b.tail + n }, none)

/-- Model of `reset_used()`, from `buffer.rs`: `head = 0; tail = 0`. -/
def TlsBuffer.reset_used (b : TlsBuffer) : TlsBuffer :=
  { b with head := 0, tail := 0 }

/-- Model of `compact()`, from `buffer.rs`: no-op when `head == 0`; otherwise
`buf.copy_within(head..tail, 0); tail -= head; head = 0`.  The new storage
is the old `[head, tail)` slice at offset 0 followed by the old bytes from
offset `tail - head` on (which `copy_within` leaves untouched). -/
def TlsBuffer.compact (b : TlsBuffer) : TlsBuffer :=
  if b.head = 0 then b
  else
    { buf := (b.buf.drop b.head).take (b.tail - b.head) ++ b.buf.drop (b.tail - b.head),
      head := 0,
      tail := b.tail - b.head }

/-- Model of `ensure_space(needed)`, from `buffer.rs`: ok if the free region already
holds `needed` bytes; otherwise compact and re-check, failing with
`BufferTooSmall` (compaction kept) if still insufficient. -/
def TlsBuffer.ensure_space (b : TlsBuffer) (needed : Nat) : TlsBuffer × Option TlsError :=
  if b.buf.length - b.tail ≥ needed then (b, none)
  else if b.compact.buf.length - b.compact.tail < needed then
    (b.compact, some .BufferTooSmall)
  else (b.compact, none)

/-- Model of `move_head(n)`, from `buffer.rs`: `head += n`, clamped to `tail`. -/
def TlsBuffer.move_head (b : TlsBuffer) (n : Nat) : TlsBuffer :=
  { b with head := if b.head + n > b.tail then b.tail else b.head + n }

/-- Overwrite `l` starting at index `pos` with `data` (indices past the end
of `l` are dropped): the model of an external writer filling a mutable
slice handed out by the buffer.  The length of `l` is preserved. -/
def overwriteAt (l : List Nat) (pos : Nat) (data : List Nat) : List Nat :=
  (List.range l.length).map fun i =>
    if pos ≤ i ∧ i - pos < data.length then data.getD (i - pos) 0 else l.getD i 0

/-- Write `data` into the free region at `tail` (the slice handed out by
`mutable_slice_from_remaining` / `remaining_buf_as_mut`); `head`/`tail`
unchanged, committing is a separate `advance_used`. -/
def TlsBuffer.writeFree (b : TlsBuffer) (data : List Nat) : TlsBuffer :=
  { b with buf := overwriteAt b.buf b.tail data }

/-- The buffer invariant from the specification: `0 ≤ head ≤ tail ≤ capacity`
(the `0 ≤` part is implicit in `Nat`). -/
def TlsBuffer.Inv (b : TlsBuffer) : Prop :=
  b.head ≤ b.tail ∧ b.tail ≤ b.buf.length

instance (b : TlsBuffer) : Decidable b.Inv := by
  unfold TlsBuffer.Inv; infer_instance

/-- The buffer operations named by claim C1, as an op-code type so that a
whole call sequence can be quantified over. -/
inductive BufOp where
  | advanceUsed (n : Nat)
  | moveHead (n : Nat)
  | resetUsed
  | ensureSpace (n : Nat)
  | mutableSlice (n : Nat)
  | extractLen
deriving DecidableEq, Repr

/-- Post-state of one buffer call, failing calls included (`advance_used`
leaves the state unchanged on failure; `ensure_space` keeps its compaction
even when it fails; `mutable_slice_from_remaining` and
`extract_record_len_from_current_position` never move `head`/`tail`). -/
def applyOp (b : TlsBuffer) (op : BufOp) : TlsBuffer :=
  match op with
  | .advanceUsed n => (b.advance_used n).1
  | .moveHead n => b.move_head n
  | .resetUsed => b.reset_used
  | .ensureSpace n => (b.ensure_space n).1
  | .mutableSlice _ => b
  | .extractLen => b

/-- Post-state of a sequence of buffer calls. -/
def applyOps (b : TlsBuffer) (ops : List BufOp) : TlsBuffer :=
  ops.foldl applyOp b

theorem compact_head (b : TlsBuffer) : b.compact.head = 0 := by
  unfold TlsBuffer.compact
  split <;> simp_all

theorem compact_tail (b : TlsBuffer) : b.compact.tail = b.tail - b.head := by
  unfold TlsBuffer.compact
  split <;> simp_all

theorem compact_buf_length (b : TlsBuffer) (h : b.Inv) :
    b.compact.buf.length = b.buf.length := by
  obtain ⟨h1, h2⟩ := h
  unfold TlsBuffer.compact
  split
  · rfl
  · simp only [List.length_append, List.length_take, List.length_drop]
    omega

theorem compact_inv (b : TlsBuffer) (h : b.Inv) : b.compact.Inv := by
  constructor
  · rw [compact_head]; exact Nat.zero_le _
  · rw [compact_tail, compact_buf_length b h]
    obtain ⟨h1, h2⟩ := h
    omega

theorem compact_used (b : TlsBuffer) (h : b.Inv) :
    b.compact.curr_used_buf_as_ref = b.curr_used_buf_as_ref := by
  obtain ⟨h1, h2⟩ := h
  unfold TlsBuffer.compact TlsBuffer.curr_used_buf_as_ref
  split
  · rfl
  · simp only [List.drop_zero, Nat.sub_zero]
    rw [List.take_append_of_le_length]
    · rw [List.take_take, Nat.min_self]
    · simp only [List.length_take, List.length_drop]
      omega

theorem compact_front (b : TlsBuffer) (h : b.Inv) :
    b.compact.buf.take (b.tail - b.head) = b.curr_used_buf_as_ref := by
  have h3 := compact_used b h
  have h4 := compact_head b
  have h5 := compact_tail b
  unfold TlsBuffer.curr_used_buf_as_ref at h3
  rw [h4, h5] at h3
  simpa using h3

theorem applyOp_inv (b : TlsBuffer) (op : BufOp) (h : b.Inv) :
    (applyOp b op).Inv ∧ (applyOp b op).buf.length = b.buf.length := by
  obtain ⟨h1, h2⟩ := h
  cases op with
  | advanceUsed n =>
    simp only [applyOp]
    unfold TlsBuffer.advance_used
    split
    · exact ⟨⟨h1, h2⟩, rfl⟩
    · rename_i hle
      refine ⟨⟨?_, ?_⟩, rfl⟩
      · show b.head ≤ b.tail + n
        omega
      · show b.tail + n ≤ b.buf.length
        omega
  | moveHead n =>
    simp only [applyOp]
    unfold TlsBuffer.move_head
    refine ⟨⟨?_, ?_⟩, rfl⟩
    · show (if b.head + n > b.tail then b.tail else b.head + n) ≤ b.tail
      split <;> omega
    · show b.tail ≤ b.buf.length
      exact h2
  | resetUsed =>
    exact ⟨⟨Nat.le_refl 0, Nat.zero_le _⟩, rfl⟩
  | ensureSpace n =>
    have hc := compact_inv b ⟨h1, h2⟩
    have hl := compact_buf_length b ⟨h1, h2⟩
    simp only [applyOp]
    unfold TlsBuffer.ensure_space
    split
    · exact ⟨⟨h1, h2⟩, rfl⟩
    · split
      · exact ⟨hc, hl⟩
      · exact ⟨hc, hl⟩
  | mutableSlice n => exact ⟨⟨h1, h2⟩, rfl⟩
  | extractLen => exact ⟨⟨h1, h2⟩, rfl⟩

theorem applyOps_inv (b : TlsBuffer) (ops : List BufOp) (h : b.Inv) :
    (applyOps b ops).Inv ∧ (applyOps b ops).buf.length = b.buf.length := by
  induction ops generalizing b with
  | nil => exact ⟨h, rfl⟩
  | cons op rest ih =>
    have h1 := applyOp_inv b op h
    have h2 := ih (applyOp b op) h1.1
    simp only [applyOps, List.foldl_cons] at *
    exact ⟨h2.1, h2.2.trans h1.2⟩

/-- Claim C1: for every `TlsBuffer` created with capacity `N` and every
sequence of calls to `advance_used`, `move_head`, `reset_used`,
`ensure_space`, `mutable_slice_from_remaining` and
`extract_record_len_from_current_position` (every successful `advance_used`
respects capacity by its own bounds check), the invariant
`0 ≤ head ≤ tail ≤ N` holds after every call, failed calls included. -/
theorem buffer_invariant_all_sequences (N : Nat) (ops : List BufOp) :
    (applyOps (TlsBuffer.new N) ops).Inv ∧
    (applyOps (TlsBuffer.new N) ops).capacity = N := by
  have h0 : (TlsBuffer.new N).Inv := ⟨Nat.le_refl 0, Nat.zero_le _⟩
  have h := applyOps_inv (TlsBuffer.new N) ops h0
  refine ⟨h.1, ?_⟩
  unfold TlsBuffer.capacity
  rw [h.2]
  simp [TlsBuffer.new]

/-- Claim C6: if `n ≤ capacity − (tail − head)` then `ensure_space(n)`
succeeds and a subsequent request for an `n`-byte free slice
(`mutable_slice_from_remaining(n)`) passes its bounds check. -/
theorem ensure_space_then_slice (b : TlsBuffer) (n : Nat) (h : b.Inv)
    (hn : n ≤ b.capacity - (b.tail - b.head)) :
    (b.ensure_space n).2 = none ∧
    (b.ensure_space n).1.mutable_slice_check n = none := by
  obtain ⟨h1, h2⟩ := h
  have hcap : b.capacity = b.buf.length := rfl
  rw [hcap] at hn
  have ht := compact_tail b
  have hl := compact_buf_length b ⟨h1, h2⟩
  unfold TlsBuffer.ensure_space
  split
  · rename_i hfree
    refine ⟨rfl, ?_⟩
    unfold TlsBuffer.mutable_slice_check
    dsimp only
    rw [if_neg (by omega)]
  · rename_i hfree
    have hok : ¬ (b.compact.buf.length - b.compact.tail < n) := by omega
    rw [if_neg hok]
    refine ⟨rfl, ?_⟩
    unfold TlsBuffer.mutable_slice_check
    dsimp only
    rw [if_neg (by omega)]

/-- Claim C6 witness: a concrete buffer where the hypothesis holds. -/
theorem ensure_space_then_slice_witness :
    ((TlsBuffer.mk [1, 2, 3, 9, 9, 9] 1 3).ensure_space 4).2 = none ∧
    ((TlsBuffer.mk [1, 2, 3, 9, 9, 9] 1 3).ensure_space 4).1.mutable_slice_check 4 = none :=
  ensure_space_then_slice (TlsBuffer.mk [1, 2, 3, 9, 9, 9] 1 3) 4
    (by decide) (by decide)

/-- Claim C7: compaction preserves the byte content of `[head, tail)`
exactly, relocating it to offset 0 (`head = 0`, `tail` = used length,
the used bytes now sit at the front of the storage), and the capacity is
unchanged. -/
theorem compact_preserves_used (b : TlsBuffer) (h : b.Inv) :
    b.compact.head = 0 ∧
    b.compact.tail = b.tail - b.head ∧
    b.compact.curr_used_buf_as_ref = b.curr_used_buf_as_ref ∧
    b.compact.buf.take (b.tail - b.head) = b.curr_used_buf_as_ref ∧
    b.compact.capacity = b.capacity :=
  ⟨compact_head b, compact_tail b, compact_used b h, compact_front b h,
    compact_buf_length b h⟩

/-- Claim C7 witness: compaction of a concrete buffer. -/
theorem compact_preserves_used_witness :
    (TlsBuffer.mk [7, 8, 9, 4, 5] 2 4).compact.head = 0 ∧
    (TlsBuffer.mk [7, 8, 9, 4, 5] 2 4).compact.tail = 4 - 2 ∧
    (TlsBuffer.mk [7, 8, 9, 4, 5] 2 4).compact.curr_used_buf_as_ref =
      (TlsBuffer.mk [7, 8, 9, 4, 5] 2 4).curr_used_buf_as_ref ∧
    (TlsBuffer.mk [7, 8, 9, 4, 5] 2 4).compact.buf.take (4 - 2) =
      (TlsBuffer.mk [7, 8, 9, 4, 5] 2 4).curr_used_buf_as_ref ∧
    (TlsBuffer.mk [7, 8, 9, 4, 5] 2 4).compact.capacity =
      (TlsBuffer.mk [7, 8, 9, 4, 5] 2 4).capacity :=
  compact_preserves_used (TlsBuffer.mk [7, 8, 9, 4, 5] 2 4) (by decide)

theorem shiftLeft_lor_eq (x y : Nat) (hy : y < 256) :
    (x <<< 8) ||| y = x * 256 + y := by
  have h := Nat.mul_add_lt_is_or (i := 8) (b := y) (by simpa using hy) x
  rw [Nat.shiftLeft_eq, Nat.mul_comm x (2 ^ 8), ← h]

/-- Claim C8: with at least 5 addressable bytes at and after `tail`,
`extract_record_len_from_current_position` returns the 16-bit big-endian
value of the two length bytes of the 5-byte header at `tail`
(`buf[tail+3] * 256 + buf[tail+4]`); it fails with `BufferTooSmall`
exactly when `tail + 5 > capacity`. -/
theorem extract_record_len_spec (b : TlsBuffer)
    (hbytes : ∀ x ∈ b.buf, x < 256) :
    (b.tail + HEADER_LEN ≤ b.buf.length →
      b.extract_record_len_from_current_position =
        .ok (b.buf.getD (b.tail + 3) 0 * 256 + b.buf.getD (b.tail + 4) 0)) ∧
    (b.tail + HEADER_LEN > b.buf.length →
      b.extract_record_len_from_current_position = .error .BufferTooSmall) := by
  constructor
  · intro hle
    have h4 : b.buf.getD (b.tail + 4) 0 < 256 := by
      have hmem : b.buf.getD (b.tail + 4) 0 ∈ b.buf := by
        rw [List.getD_eq_getElem b.buf 0 (by unfold HEADER_LEN at hle; omega)]
        exact List.getElem_mem _
      exact hbytes _ hmem
    unfold TlsBuffer.extract_record_len_from_current_position
    rw [if_neg (by omega)]
    unfold SECOND_LEN_BYTE_POS FIRST_LEN_BYTE_POS
    rw [shiftLeft_lor_eq _ _ h4]
  · intro hgt
    unfold TlsBuffer.extract_record_len_from_current_position
    rw [if_pos (by omega)]

/-- Claim C8 witness: a concrete header `[22, 3, 3, 1, 44]` at `tail = 1`
declares length `1 * 256 + 44`, and a buffer with fewer than 5 bytes after
`tail` fails. -/
theorem extract_record_len_spec_witness :
    (1 + HEADER_LEN ≤ ([9, 22, 3, 3, 1, 44] : List Nat).length →
      (TlsBuffer.mk [9, 22, 3, 3, 1, 44] 0 1).extract_record_len_from_current_position =
        .ok (([9, 22, 3, 3, 1, 44] : List Nat).getD (1 + 3) 0 * 256 +
          ([9, 22, 3, 3, 1, 44] : List Nat).getD (1 + 4) 0)) ∧
    (1 + HEADER_LEN > ([9, 22, 3, 3, 1, 44] : List Nat).length →
      (TlsBuffer.mk [9, 22, 3, 3, 1, 44] 0 1).extract_record_len_from_current_position =
        .error .BufferTooSmall) :=
  extract_record_len_spec (TlsBuffer.mk [9, 22, 3, 3, 1, 44] 0 1) (by decide)

/-- Transport events performed against the `VsockStream` collaborator:
`sockRead n` is a `sock.read` into an `n`-byte slice, `sockWrite data` is a
`sock.write` of `data`. -/
inductive IoEvent where
  | sockRead (n : Nat)
  | sockWrite (data : List Nat)
deriving DecidableEq, Repr

/-- Outcome of `recv_record_over_vsock`: the in-buffer post state (mutations
made before a failure are kept, as with `&mut self` in Rust), the transport
events performed, and the error (`none` = `Ok`). -/
structure RecvResult where
  buffer : TlsBuffer
  io : List IoEvent
  err : Option TlsError
deriving DecidableEq, Repr

/-- First half of `TlsConnection::recv_record_over_vsock`
(`connection.rs`): ensure room for the 5-byte header, read it from the
transport (the oracle `r1` is what the transport delivers; a short
delivery models a short `read`), parse the declared length, commit the
header bytes.  Returns the state just after the header commit together
with the declared payload length, or the early-failure outcome. -/
def recv_header_phase (b : TlsBuffer) (r1 : List Nat) :
    (TlsBuffer × Nat) ⊕ RecvResult :=
  match b.ensure_space HEADER_LEN with
  | (b1, some e) => .inr ⟨b1, [], some e⟩
  | (b1, none) =>
    match b1.mutable_slice_check HEADER_LEN with
    | some e => .inr ⟨b1, [], some e⟩
    | none =>
      if (r1.take HEADER_LEN).length ≠ HEADER_LEN then
        .inr ⟨b1.writeFree (r1.take HEADER_LEN), [.sockRead HEADER_LEN],
          some .IncompleteRead⟩
      else
        match (b1.writeFree (r1.take HEADER_LEN)).extract_record_len_from_current_position with
        | .error e => .inr ⟨b1.writeFree (r1.take HEADER_LEN), [.sockRead HEADER_LEN], some e⟩
        | .ok payload_len =>
          match (b1.writeFree (r1.take HEADER_LEN)).advance_used HEADER_LEN with
          | (b3, some e) => .inr ⟨b3, [.sockRead HEADER_LEN], some e⟩
          | (b3, none) => .inl (b3, payload_len)

/-- Second half of `TlsConnection::recv_record_over_vsock`: ensure room for
the declared payload, read it (oracle `r2`), commit it. -/
def recv_payload_phase (b3 : TlsBuffer) (payload_len : Nat) (r2 : List Nat) :
    RecvResult :=
  match b3.ensure_space payload_len with
  | (b4, some e) => ⟨b4, [], some e⟩
  | (b4, none) =>
    match b4.mutable_slice_check payload_len with
    | some e => ⟨b4, [], some e⟩
    | none =>
      if (r2.take payload_len).length ≠ payload_len then
        ⟨b4.writeFree (r2.take payload_len), [.sockRead payload_len],
          some .IncompleteRead⟩
      else
        match (b4.writeFree (r2.take payload_len)).advance_used payload_len with
        | (b6, some e) => ⟨b6, [.sockRead payload_len], some e⟩
        | (b6, none) => ⟨b6, [.sockRead payload_len], none⟩

/-- Model of `TlsConnection::recv_record_over_vsock`, from `connection.rs`: the two
phases in sequence (the header-phase transport read precedes any
payload-phase event). -/
def recv_record_over_vsock (b : TlsBuffer) (r1 r2 : List Nat) : RecvResult :=
  match recv_header_phase b r1 with
  | .inr r => r
  | .inl (b3, L) =>
    ⟨(recv_payload_phase b3 L r2).buffer,
      IoEvent.sockRead HEADER_LEN :: (recv_payload_phase b3 L r2).io,
      (recv_payload_phase b3 L r2).err⟩

/-- The buffer state just after the 5 header bytes were committed as used,
together with the declared payload length (`none` if the call failed
before that point). -/
def state_after_header (b : TlsBuffer) (r1 : List Nat) :
    Option (TlsBuffer × Nat) :=
  match recv_header_phase b r1 with
  | .inl x => some x
  | .inr _ => none

theorem ensure_space_inv (b : TlsBuffer) (n : Nat) (h : b.Inv) :
    (b.ensure_space n).1.Inv :=
  (applyOp_inv b (.ensureSpace n) h).1

theorem advance_used_inv (b : TlsBuffer) (n : Nat) (h : b.Inv) :
    (b.advance_used n).1.Inv :=
  (applyOp_inv b (.advanceUsed n) h).1

theorem writeFree_inv (b : TlsBuffer) (d : List Nat) (h : b.Inv) :
    (b.writeFree d).Inv := by
  obtain ⟨h1, h2⟩ := h
  refine ⟨h1, ?_⟩
  show b.tail ≤ (overwriteAt b.buf b.tail d).length
  unfold overwriteAt
  simpa using h2

theorem recv_header_phase_inl_inv (b : TlsBuffer) (r1 : List Nat)
    (b3 : TlsBuffer) (L : Nat) (hinv : b.Inv)
    (h : recv_header_phase b r1 = .inl (b3, L)) : b3.Inv := by
  unfold recv_header_phase at h
  split at h
  · exact absurd h (by simp)
  · rename_i b1 heq1
    have hb1 : b1.Inv := by
      have := ensure_space_inv b HEADER_LEN hinv
      rw [heq1] at this
      exact this
    split at h
    · exact absurd h (by simp)
    · split at h
      · exact absurd h (by simp)
      · split at h
        · exact absurd h (by simp)
        · rename_i plen heq2
          split at h
          · exact absurd h (by simp)
          · rename_i b3x heq3
            simp only [Sum.inl.injEq, Prod.mk.injEq] at h
            obtain ⟨hb, hL⟩ := h
            subst hb
            have := advance_used_inv (b1.writeFree (r1.take HEADER_LEN))
              HEADER_LEN (writeFree_inv b1 _ hb1)
            rw [heq3] at this
            exact this

/-- Claim C3 (amended): if the 5-byte header declares a payload length `L`
that cannot fit (`capacity − used < L` at the state `b3` just after the
header bytes were committed), `recv_record_over_vsock` fails with
`BufferTooSmall` and performs no payload transport read; the final buffer
is `b3` compacted: its used-region content and its capacity are unchanged
from `b3`, though `head`/`tail` may have been relocated by the compaction
the failing `ensure_space` attempts. -/
theorem recv_fails_buffer_too_small (b : TlsBuffer) (r1 r2 : List Nat)
    (b3 : TlsBuffer) (L : Nat)
    (hsa : state_after_header b r1 = some (b3, L))
    (hinv : b.Inv)
    (hbig : b3.buf.length - (b3.tail - b3.head) < L) :
    recv_record_over_vsock b r1 r2 =
      ⟨b3.compact, [.sockRead HEADER_LEN], some .BufferTooSmall⟩ ∧
    b3.compact.curr_used_buf_as_ref = b3.curr_used_buf_as_ref ∧
    b3.compact.capacity = b3.capacity := by
  have hphase : recv_header_phase b r1 = .inl (b3, L) := by
    unfold state_after_header at hsa
    split at hsa
    · rename_i x heq
      simp only [Option.some.injEq] at hsa
      rw [heq, hsa]
    · exact absurd hsa (by simp)
  have hinv3 : b3.Inv := recv_header_phase_inl_inv b r1 b3 L hinv hphase
  obtain ⟨h1, h2⟩ := hinv3
  have ht := compact_tail b3
  have hl := compact_buf_length b3 ⟨h1, h2⟩
  have hpay : recv_payload_phase b3 L r2 = ⟨b3.compact, [], some .BufferTooSmall⟩ := by
    unfold recv_payload_phase TlsBuffer.ensure_space
    rw [if_neg (by omega), if_pos (by omega)]
  refine ⟨?_, compact_used b3 ⟨h1, h2⟩, hl⟩
  unfold recv_record_over_vsock
  rw [hphase]
  dsimp only
  rw [hpay]

/-- Claim C3 counterexample: capacity 12, `head = 2`, `tail = 5`; the
header `[23, 3, 3, 0, 200]` declares a 200-byte payload.  The call fails
with `BufferTooSmall` as the claim says, but the buffer state is NOT the
state just after header commit (`head = 2`, `tail = 10`): the failing
`ensure_space` compacted it to `head = 0`, `tail = 8`. -/
theorem recv_state_changed_counterexample :
    state_after_header ⟨List.replicate 12 0, 2, 5⟩ [23, 3, 3, 0, 200] =
      some (⟨[0, 0, 0, 0, 0, 23, 3, 3, 0, 200, 0, 0], 2, 10⟩, 200) ∧
    (recv_record_over_vsock ⟨List.replicate 12 0, 2, 5⟩ [23, 3, 3, 0, 200] []).err =
      some .BufferTooSmall ∧
    (recv_record_over_vsock ⟨List.replicate 12 0, 2, 5⟩ [23, 3, 3, 0, 200] []).buffer ≠
      ⟨[0, 0, 0, 0, 0, 23, 3, 3, 0, 200, 0, 0], 2, 10⟩ := by
  decide

/-- Claim C3 witness: the amended theorem applied at the concrete
overflowing record above. -/
theorem recv_fails_buffer_too_small_witness :
    recv_record_over_vsock ⟨List.replicate 12 0, 2, 5⟩ [23, 3, 3, 0, 200] [] =
      ⟨TlsBuffer.compact ⟨[0, 0, 0, 0, 0, 23, 3, 3, 0, 200, 0, 0], 2, 10⟩,
        [.sockRead HEADER_LEN], some .BufferTooSmall⟩ ∧
    (TlsBuffer.compact ⟨[0, 0, 0, 0, 0, 23, 3, 3, 0, 200, 0, 0], 2, 10⟩).curr_used_buf_as_ref =
      TlsBuffer.curr_used_buf_as_ref ⟨[0, 0, 0, 0, 0, 23, 3, 3, 0, 200, 0, 0], 2, 10⟩ ∧
    (TlsBuffer.compact ⟨[0, 0, 0, 0, 0, 23, 3, 3, 0, 200, 0, 0], 2, 10⟩).capacity =
      TlsBuffer.capacity ⟨[0, 0, 0, 0, 0, 23, 3, 3, 0, 200, 0, 0], 2, 10⟩ :=
  recv_fails_buffer_too_small ⟨List.replicate 12 0, 2, 5⟩ [23, 3, 3, 0, 200] []
    ⟨[0, 0, 0, 0, 0, 23, 3, 3, 0, 200, 0, 0], 2, 10⟩ 200
    (by decide) (by decide) (by decide)

/-- Model of `ConnectionDetails`, from `connection.rs`. -/
structure ConnectionDetails where
  handshake_complete : Bool
  request_sent : Bool
  received_response : Bool
  peer_closed : Bool
  our_side_closed : Bool
  connection_closed : Bool
deriving DecidableEq, Repr

/-- Model of `ConnectionDetails::new()`: all flags false. -/
def ConnectionDetails.new : ConnectionDetails :=
  ⟨false, false, false, false, false, false⟩

/-- The connection state owned by `TlsConnection` (`connection.rs`): the two
buffers and the status flags.  The rustls engine handle and the socket are
external collaborators, modelled as per-step oracles. -/
structure Conn where
  in_buffer : TlsBuffer
  out_buffer : TlsBuffer
  status : ConnectionDetails
deriving DecidableEq, Repr

instance {ε α : Type} [DecidableEq ε] [DecidableEq α] : DecidableEq (Except ε α) :=
  fun x y =>
    match x, y with
    | .error e1, .error e2 =>
      if h : e1 = e2 then .isTrue (by rw [h]) else .isFalse (by simp [h])
    | .error _, .ok _ => .isFalse (by simp)
    | .ok _, .error _ => .isFalse (by simp)
    | .ok a1, .ok a2 =>
      if h : a1 = a2 then .isTrue (by rw [h]) else .isFalse (by simp [h])

/-- The abstract `rustls::unbuffered::ConnectionState` variants the dispatch
in `tls_state_machine_advance` consumes, together with the data the engine
would produce in that state (what `encode`/`encrypt`/`queue_close_notify`
would write into the caller-supplied slice, what `next_record()` would
return).  `otherState` covers the catch-all `_` arm. -/
inductive EngineState where
  | encodeTlsData (encoded : Except TlsError (List Nat))
  | transmitTlsData (is_handshaking : Bool)
  | blockedHandshake
  | writeTraffic (encrypted : Except TlsError (List Nat))
      (closeNotify : Except TlsError (List Nat))
  | readTraffic (next_record : Option (Except TlsError (Nat × List Nat)))
  | peerClosed
  | closed
  | otherState
deriving DecidableEq, Repr

/-- One `process_tls_records` outcome: bytes to discard plus the state (or
the engine error, surfaced immediately). -/
structure EngineStep where
  discard : Nat
  state : Except TlsError EngineState
deriving DecidableEq, Repr

/-- Everything the external collaborators contribute to one single-step
advance: the engine outcome, the result of an attempted `sock.write`, and
the bytes the transport delivers to the up-to-two `sock.read` calls of
`recv_record_over_vsock`. -/
structure StepOracle where
  engine : EngineStep
  write_result : Option TlsError
  reads1 : List Nat
  reads2 : List Nat
deriving DecidableEq, Repr

/-- Model of `TlsAction`, from `connection.rs` (the `&mut` buffer of the read action is
modelled by its length; the bytes copied out are `StepResult.copied`). -/
inductive TlsAction where
  | handshake
  | readRecord (bufLen : Nat)
  | writeRecord (data : List Nat)
  | closeConnection
deriving DecidableEq, Repr

/-- Result of one single-step advance: post connection state, transport
events, error, and the bytes copied into the buffer of the read caller. -/
structure StepResult where
  conn : Conn
  io : List IoEvent
  err : Option TlsError
  copied : List Nat
deriving DecidableEq, Repr

/-- Common shape of `prepare_handshake_record`, `encrypt_data` and
`prepare_queue_close_notify` (`connection.rs`): the engine operation writes
`data` into the free region of the out buffer and its length is committed with
`advance_used`; an engine failure (or a failed commit) is propagated. -/
def write_into_out_buffer (out_buffer : TlsBuffer)
    (encoded : Except TlsError (List Nat)) : TlsBuffer × Option TlsError :=
  match encoded with
  | .error e => (out_buffer, some e)
  | .ok data => (out_buffer.writeFree data).advance_used data.length

/-- Model of `send_record_over_vsock` (`connection.rs`): `sock.write` the used
region, then reset the buffer; on a write error the buffer is not reset. -/
def send_record_over_vsock (out_buffer : TlsBuffer)
    (write_result : Option TlsError) : TlsBuffer × List IoEvent × Option TlsError :=
  match write_result with
  | some e => (out_buffer, [.sockWrite out_buffer.curr_used_buf_as_ref], some e)
  | none => (out_buffer.reset_used, [.sockWrite out_buffer.curr_used_buf_as_ref], none)

/-- The receive path shared by the `BlockedHandshake` arm and the
`WriteTraffic` fall-through arm: `self.in_buffer.move_head(discard)`
followed by `self.recv_record_over_vsock()`. -/
def advance_recv_path (c : Conn) (o : StepOracle) : StepResult :=
  match recv_record_over_vsock (c.in_buffer.move_head o.engine.discard)
      o.reads1 o.reads2 with
  | ⟨ib, evs, err⟩ => ⟨{ c with in_buffer := ib }, evs, err, []⟩

/-- Model of `TlsConnection::tls_state_machine_advance`, from `connection.rs`
lines 161-282, arm by arm. -/
def tls_state_machine_advance (c : Conn) (o : StepOracle) (action : TlsAction) :
    StepResult :=
  match o.engine.state with
  | .error e => ⟨c, [], some e, []⟩
  | .ok (.encodeTlsData encoded) =>
    if action ≠ .handshake then ⟨c, [], some .UnexpectedState, []⟩
    else
      match write_into_out_buffer c.out_buffer encoded with
      | (ob, some e) => ⟨{ c with out_buffer := ob }, [], some e, []⟩
      | (ob, none) =>
        ⟨{ c with
            out_buffer := ob
            in_buffer := c.in_buffer.move_head o.engine.discard }, [], none, []⟩
  | .ok (.transmitTlsData is_handshaking) =>
    if action ≠ .handshake then ⟨c, [], some .UnexpectedState, []⟩
    else
      match send_record_over_vsock c.out_buffer o.write_result with
      | (ob, evs, some e) => ⟨{ c with out_buffer := ob }, evs, some e, []⟩
      | (ob, evs, none) =>
        ⟨{ c with
            out_buffer := ob
            in_buffer := c.in_buffer.move_head o.engine.discard
            status := if is_handshaking then c.status
              else { c.status with handshake_complete := true } }, evs, none, []⟩
  | .ok .blockedHandshake =>
    if action ≠ .handshake then ⟨c, [], some .UnexpectedState, []⟩
    else advance_recv_path c o
  | .ok (.writeTraffic encrypted closeNotify) =>
    if action = .handshake then ⟨c, [], some .UnexpectedState, []⟩
    else
      match action with
      | .writeRecord _data =>
        match write_into_out_buffer c.out_buffer encrypted with
        | (ob, some e) => ⟨{ c with out_buffer := ob }, [], some e, []⟩
        | (ob, none) =>
          match send_record_over_vsock ob o.write_result with
          | (ob2, evs, some e) => ⟨{ c with out_buffer := ob2 }, evs, some e, []⟩
          | (ob2, evs, none) =>
            ⟨{ c with
                out_buffer := ob2
                in_buffer := c.in_buffer.move_head o.engine.discard
                status := { c.status with request_sent := true } }, evs, none, []⟩
      | .closeConnection =>
        if ¬ c.status.our_side_closed then
          match write_into_out_buffer c.out_buffer closeNotify with
          | (ob, some e) => ⟨{ c with out_buffer := ob }, [], some e, []⟩
          | (ob, none) =>
            match send_record_over_vsock ob o.write_result with
            | (ob2, evs, some e) => ⟨{ c with out_buffer := ob2 }, evs, some e, []⟩
            | (ob2, evs, none) =>
              ⟨{ c with
                  out_buffer := ob2
                  in_buffer := c.in_buffer.move_head o.engine.discard
                  status := { c.status with our_side_closed := true } }, evs, none, []⟩
        else advance_recv_path c o
      | _ => advance_recv_path c o
  | .ok (.readTraffic next_record) =>
    match action with
    | .readRecord bufLen =>
      match next_record with
      | none => ⟨c, [], some .GenericError, []⟩
      | some (.error e) => ⟨c, [], some e, []⟩
      | some (.ok (rdiscard, payload)) =>
        ⟨{ c with
            in_buffer := c.in_buffer.move_head (o.engine.discard + rdiscard)
            status := { c.status with received_response := true } },
          [], none, payload.take bufLen⟩
    | _ => ⟨c, [], some .UnexpectedState, []⟩
  | .ok .peerClosed =>
    ⟨{ c with
        in_buffer := c.in_buffer.move_head o.engine.discard
        status := { c.status with peer_closed := true } }, [], none, []⟩
  | .ok .closed =>
    ⟨{ c with status := { c.status with connection_closed := true } }, [], none, []⟩
  | .ok .otherState => ⟨c, [], some .UnexpectedState, []⟩

/-- The `while` loop of `read_tls`, driven by a finite oracle trace (`none`
when the trace runs out while the loop would continue). -/
def read_tls_loop (os : List StepOracle) (c : Conn) (bufLen : Nat) (total : Nat)
    (evs : List IoEvent) : Option (Conn × List IoEvent × Nat × Option TlsError) :=
  match os with
  | [] =>
    if !c.status.received_response && !c.status.connection_closed &&
        !c.status.peer_closed then none
    else some (c, evs, total, none)
  | o :: rest =>
    if !c.status.received_response && !c.status.connection_closed &&
        !c.status.peer_closed then
      match tls_state_machine_advance c o (.readRecord bufLen) with
      | ⟨c2, io, some e, _⟩ => some (c2, evs ++ io, total, some e)
      | ⟨c2, io, none, copied⟩ =>
        read_tls_loop rest c2 bufLen (total + copied.length) (evs ++ io)
    else some (c, evs, total, none)

/-- Model of `TlsConnection::read_tls`, from `connection.rs` lines 121-137: return
`Ok(0)` immediately when `connection_closed || peer_closed`; otherwise
clear `received_response` and loop single-step advances with read intent. -/
def read_tls (c : Conn) (bufLen : Nat) (os : List StepOracle) :
    Option (Conn × List IoEvent × Nat × Option TlsError) :=
  if c.status.connection_closed || c.status.peer_closed then some (c, [], 0, none)
  else
    read_tls_loop os { c with status := { c.status with received_response := false } }
      bufLen 0 []

/-- Model of `TlsConnection::write_tls`, from `connection.rs` lines 140-150: fail
with `ConnectionClosed` if already closed; perform exactly one single-step
advance with write intent; fail with `GenericError` if `request_sent` is
not set afterwards. -/
def write_tls (c : Conn) (data : List Nat) (o : StepOracle) :
    Conn × List IoEvent × Option TlsError :=
  if c.status.connection_closed then (c, [], some .ConnectionClosed)
  else
    match tls_state_machine_advance c o (.writeRecord data) with
    | ⟨c2, io, some e, _⟩ => (c2, io, some e)
    | ⟨c2, io, none, _⟩ =>
      if !c2.status.request_sent then (c2, io, some .GenericError)
      else (c2, io, none)

/-- Whether the engine reported the application-write-ready state. -/
def is_write_ready (s : Except TlsError EngineState) : Bool :=
  match s with
  | .ok (.writeTraffic _ _) => true
  | _ => false

/-- Claim C5 (amended): `read_tls` on a connection with `connection_closed`
or `peer_closed` set returns 0 bytes immediately, with no transport event
and no state change.  (`our_side_closed` alone does NOT short-circuit the
read: the code checks only `connection_closed || peer_closed`.) -/
theorem read_tls_closed_returns_zero (c : Conn) (bufLen : Nat)
    (os : List StepOracle)
    (h : c.status.connection_closed = true ∨ c.status.peer_closed = true) :
    read_tls c bufLen os = some (c, [], 0, none) := by
  unfold read_tls
  rcases h with h | h <;> simp [h]

/-- Claim C5 witness: a peer-closed connection returns 0 immediately. -/
theorem read_tls_closed_returns_zero_witness :
    read_tls ⟨TlsBuffer.new 4, TlsBuffer.new 4, ⟨false, false, false, true, false, false⟩⟩ 8 [] =
      some (⟨TlsBuffer.new 4, TlsBuffer.new 4, ⟨false, false, false, true, false, false⟩⟩,
        [], 0, none) :=
  read_tls_closed_returns_zero
    ⟨TlsBuffer.new 4, TlsBuffer.new 4, ⟨false, false, false, true, false, false⟩⟩ 8 []
    (Or.inr rfl)

/-- Claim C5 counterexample: a connection closed on OUR side only
(`our_side_closed = true`, everything else false) is "closed on one side",
yet `read_tls` does not return 0: with a decrypted application record
available it copies 3 bytes, returns 3 and changes the connection state
(`received_response` becomes true). -/
theorem read_tls_our_side_closed_counterexample :
    (⟨TlsBuffer.new 4, TlsBuffer.new 4,
      ⟨false, false, false, false, true, false⟩⟩ : Conn).status.our_side_closed = true ∧
    read_tls ⟨TlsBuffer.new 4, TlsBuffer.new 4, ⟨false, false, false, false, true, false⟩⟩ 8
      [⟨⟨0, .ok (.readTraffic (some (.ok (0, [7, 8, 9]))))⟩, none, [], []⟩] =
      some (⟨TlsBuffer.new 4, TlsBuffer.new 4, ⟨false, false, true, false, true, false⟩⟩,
        [], 3, none) := by
  decide

/-- Claim C4 (amended): on a connection that is not `connection_closed`,
`write_tls` performs exactly one single-step advance; if the engine was not
in the application-write-ready state (so nothing was sent) and no earlier
write has already set `request_sent`, the call fails: with `GenericError`
whenever the advance step itself succeeded, and otherwise with the own error of the step (`UnexpectedState` on an intent/state mismatch, or the error
reported by the engine). -/
theorem write_tls_not_ready_fails (c : Conn) (data : List Nat) (o : StepOracle)
    (hclosed : c.status.connection_closed = false)
    (hsent : c.status.request_sent = false)
    (hready : is_write_ready o.engine.state = false) :
    (write_tls c data o).2.2 ≠ none ∧
    ((tls_state_machine_advance c o (.writeRecord data)).err = none →
      (write_tls c data o).2.2 = some .GenericError) := by
  obtain ⟨⟨d, st⟩, wr, r1, r2⟩ := o
  cases st with
  | error e => simp [write_tls, tls_state_machine_advance, hclosed]
  | ok s =>
    cases s with
    | encodeTlsData enc => simp [write_tls, tls_state_machine_advance, hclosed]
    | transmitTlsData ih => simp [write_tls, tls_state_machine_advance, hclosed]
    | blockedHandshake => simp [write_tls, tls_state_machine_advance, hclosed]
    | writeTraffic enc cn => exact absurd hready (by simp [is_write_ready])
    | readTraffic nr => simp [write_tls, tls_state_machine_advance, hclosed]
    | peerClosed => simp [write_tls, tls_state_machine_advance, hclosed, hsent]
    | closed => simp [write_tls, tls_state_machine_advance, hclosed, hsent]
    | otherState => simp [write_tls, tls_state_machine_advance, hclosed]

/-- Claim C4 witness: the amended theorem at a concrete first-write call in
the peer-closed engine state. -/
theorem write_tls_not_ready_fails_witness :
    (write_tls ⟨TlsBuffer.new 4, TlsBuffer.new 4, ConnectionDetails.new⟩ [1]
        ⟨⟨0, .ok .peerClosed⟩, none, [], []⟩).2.2 ≠ none ∧
    ((tls_state_machine_advance ⟨TlsBuffer.new 4, TlsBuffer.new 4, ConnectionDetails.new⟩
        ⟨⟨0, .ok .peerClosed⟩, none, [], []⟩ (.writeRecord [1])).err = none →
      (write_tls ⟨TlsBuffer.new 4, TlsBuffer.new 4, ConnectionDetails.new⟩ [1]
        ⟨⟨0, .ok .peerClosed⟩, none, [], []⟩).2.2 = some .GenericError) :=
  write_tls_not_ready_fails ⟨TlsBuffer.new 4, TlsBuffer.new 4, ConnectionDetails.new⟩ [1]
    ⟨⟨0, .ok .peerClosed⟩, none, [], []⟩ rfl rfl rfl

/-- Claim C4 counterexample, refuting the claim as stated at two concrete
inputs.  First: `request_sent` is still set from an earlier write and the
engine reports the peer-closed state -- the engine was not write-ready and
nothing was sent (no transport event), yet `write_tls` returns success, not
a generic error.  Second: on a fresh connection with the engine blocked in
the handshake, `write_tls` fails with `UnexpectedState`, not with the
generic error the claim names. -/
theorem write_tls_counterexample :
    (write_tls ⟨TlsBuffer.new 4, TlsBuffer.new 4, ⟨true, true, false, false, false, false⟩⟩ [1]
        ⟨⟨0, .ok .peerClosed⟩, none, [], []⟩).2.2 = none ∧
    (write_tls ⟨TlsBuffer.new 4, TlsBuffer.new 4, ⟨true, true, false, false, false, false⟩⟩ [1]
        ⟨⟨0, .ok .peerClosed⟩, none, [], []⟩).2.1 = [] ∧
    (write_tls ⟨TlsBuffer.new 4, TlsBuffer.new 4, ConnectionDetails.new⟩ [1]
        ⟨⟨0, .ok .blockedHandshake⟩, none, [], []⟩).2.2 = some .UnexpectedState := by
  decide

theorem move_head_used_drop (b : TlsBuffer) (d : Nat) (hinv : b.Inv)
    (hd : b.head + d ≤ b.tail) :
    (b.move_head d).curr_used_buf_as_ref = b.curr_used_buf_as_ref.drop d := by
  obtain ⟨h1, h2⟩ := hinv
  unfold TlsBuffer.move_head TlsBuffer.curr_used_buf_as_ref
  rw [if_neg (by omega)]
  show (b.buf.drop (b.head + d)).take (b.tail - (b.head + d)) = _
  rw [List.drop_take, List.drop_drop, Nat.sub_sub]

/-- Claim C10: in the `ReadTraffic` arm, when the buffer of the caller is
shorter than the payload of the decrypted record, exactly the first `bufLen` payload bytes are copied, the step succeeds with no transport event,
`received_response` is set, and the in-buffer head is advanced over the
whole record (`discard` plus the own discard of the record), so -- given the
engine discard contract `head + discard_total ≤ tail` -- the used region
afterwards is the old used region with the entire record (the uncopied
remainder included) removed. -/
theorem read_traffic_short_buffer (c : Conn) (o : StepOracle)
    (bufLen rdiscard : Nat) (payload : List Nat)
    (hstate : o.engine.state = .ok (.readTraffic (some (.ok (rdiscard, payload)))))
    (hshort : bufLen < payload.length)
    (hinv : c.in_buffer.Inv)
    (hdisc : c.in_buffer.head + (o.engine.discard + rdiscard) ≤ c.in_buffer.tail) :
    (tls_state_machine_advance c o (.readRecord bufLen)).err = none ∧
    (tls_state_machine_advance c o (.readRecord bufLen)).copied = payload.take bufLen ∧
    (tls_state_machine_advance c o (.readRecord bufLen)).copied.length = bufLen ∧
    (tls_state_machine_advance c o (.readRecord bufLen)).io = [] ∧
    (tls_state_machine_advance c o (.readRecord bufLen)).conn.out_buffer = c.out_buffer ∧
    (tls_state_machine_advance c o (.readRecord bufLen)).conn.status.received_response = true ∧
    (tls_state_machine_advance c o (.readRecord bufLen)).conn.in_buffer =
      c.in_buffer.move_head (o.engine.discard + rdiscard) ∧
    (tls_state_machine_advance c o (.readRecord bufLen)).conn.in_buffer.curr_used_buf_as_ref =
      c.in_buffer.curr_used_buf_as_ref.drop (o.engine.discard + rdiscard) := by
  have hdrop := move_head_used_drop c.in_buffer (o.engine.discard + rdiscard) hinv hdisc
  simp [tls_state_machine_advance, hstate, hdrop, Nat.min_eq_left (Nat.le_of_lt hshort)]

/-- Claim C10 witness: a concrete 3-byte record read into a 2-byte caller
buffer; the copied bytes are the first 2 payload bytes and the whole
record leaves the used region. -/
theorem read_traffic_short_buffer_witness :
    (tls_state_machine_advance
        ⟨⟨[1, 2, 3, 4, 5, 6], 0, 6⟩, TlsBuffer.new 4, ConnectionDetails.new⟩
        ⟨⟨2, .ok (.readTraffic (some (.ok (4, [7, 8, 9]))))⟩, none, [], []⟩
        (.readRecord 2)).err = none ∧
    (tls_state_machine_advance
        ⟨⟨[1, 2, 3, 4, 5, 6], 0, 6⟩, TlsBuffer.new 4, ConnectionDetails.new⟩
        ⟨⟨2, .ok (.readTraffic (some (.ok (4, [7, 8, 9]))))⟩, none, [], []⟩
        (.readRecord 2)).copied = [7, 8, 9].take 2 ∧
    (tls_state_machine_advance
        ⟨⟨[1, 2, 3, 4, 5, 6], 0, 6⟩, TlsBuffer.new 4, ConnectionDetails.new⟩
        ⟨⟨2, .ok (.readTraffic (some (.ok (4, [7, 8, 9]))))⟩, none, [], []⟩
        (.readRecord 2)).copied.length = 2 ∧
    (tls_state_machine_advance
        ⟨⟨[1, 2, 3, 4, 5, 6], 0, 6⟩, TlsBuffer.new 4, ConnectionDetails.new⟩
        ⟨⟨2, .ok (.readTraffic (some (.ok (4, [7, 8, 9]))))⟩, none, [], []⟩
        (.readRecord 2)).io = [] ∧
    (tls_state_machine_advance
        ⟨⟨[1, 2, 3, 4, 5, 6], 0, 6⟩, TlsBuffer.new 4, ConnectionDetails.new⟩
        ⟨⟨2, .ok (.readTraffic (some (.ok (4, [7, 8, 9]))))⟩, none, [], []⟩
        (.readRecord 2)).conn.out_buffer = TlsBuffer.new 4 ∧
    (tls_state_machine_advance
        ⟨⟨[1, 2, 3, 4, 5, 6], 0, 6⟩, TlsBuffer.new 4, ConnectionDetails.new⟩
        ⟨⟨2, .ok (.readTraffic (some (.ok (4, [7, 8, 9]))))⟩, none, [], []⟩
        (.readRecord 2)).conn.status.received_response = true ∧
    (tls_state_machine_advance
        ⟨⟨[1, 2, 3, 4, 5, 6], 0, 6⟩, TlsBuffer.new 4, ConnectionDetails.new⟩
        ⟨⟨2, .ok (.readTraffic (some (.ok (4, [7, 8, 9]))))⟩, none, [], []⟩
        (.readRecord 2)).conn.in_buffer =
      TlsBuffer.move_head ⟨[1, 2, 3, 4, 5, 6], 0, 6⟩ (2 + 4) ∧
    (tls_state_machine_advance
        ⟨⟨[1, 2, 3, 4, 5, 6], 0, 6⟩, TlsBuffer.new 4, ConnectionDetails.new⟩
        ⟨⟨2, .ok (.readTraffic (some (.ok (4, [7, 8, 9]))))⟩, none, [], []⟩
        (.readRecord 2)).conn.in_buffer.curr_used_buf_as_ref =
      (TlsBuffer.curr_used_buf_as_ref ⟨[1, 2, 3, 4, 5, 6], 0, 6⟩).drop (2 + 4) :=
  read_traffic_short_buffer
    ⟨⟨[1, 2, 3, 4, 5, 6], 0, 6⟩, TlsBuffer.new 4, ConnectionDetails.new⟩
    ⟨⟨2, .ok (.readTraffic (some (.ok (4, [7, 8, 9]))))⟩, none, [], []⟩
    2 4 [7, 8, 9] rfl (by decide) (by decide) (by decide)

/-- Model of `AES_GCM_OVERHEAD`, from `aead.rs` (the 16-byte authentication tag). -/
def AES_GCM_OVERHEAD : Nat := 16

/-- Model of `encrypted_payload_len`, from `aead.rs`:
`payload_len + AES_GCM_OVERHEAD + 1`. -/
def encrypted_payload_len (payload_len : Nat) : Nat :=
  payload_len + AES_GCM_OVERHEAD + 1

/-- The maximum TLS 1.3 inner-plaintext fragment length enforced by the
rustls unpadding helper (`MAX_FRAGMENT_LEN`). -/
def MAX_FRAGMENT_LEN : Nat := 16384

/-- Big-endian 8-byte encoding of a 64-bit sequence number. -/
def be64 (seq : Nat) : List Nat :=
  (List.range 8).map fun i => seq / 2 ^ (8 * (7 - i)) % 256

/-- Per-record nonce (rustls `Nonce::new(iv, seq)`): the 12-byte base IV
XORed with 4 zero bytes followed by the big-endian sequence number. -/
def nonceOf (iv : List Nat) (seq : Nat) : List Nat :=
  List.zipWith Nat.xor iv ([0, 0, 0, 0] ++ be64 seq)

/-- rustls `make_tls13_aad(len)`: `[0x17, 0x03, 0x03, len >> 8, len]`. -/
def make_tls13_aad (len : Nat) : List Nat :=
  [23, 3, 3, len / 256 % 256, len % 256]

/-- The external AEAD primitive (the in-place seal/open of the aes-gcm crate)
abstracted to its interface contract: sealing appends exactly the 16-byte
authentication tag and opening inverts sealing under the same nonce and
AAD.  The adapter in `aead.rs` is verified for every primitive satisfying
this contract. -/
structure AeadPrim where
  sealFn : List Nat → List Nat → List Nat → List Nat
  openA : List Nat → List Nat → List Nat → Option (List Nat)
  seal_len : ∀ n a p, (sealFn n a p).length = p.length + 16
  open_seal : ∀ n a p, openA n a (sealFn n a p) = some p

/-- An outbound encrypted record as produced by `MessageEncrypter::encrypt`:
content type byte, legacy record version, encrypted payload. -/
structure OutboundRecord where
  typ : Nat
  version : Nat × Nat
  payload : List Nat
deriving DecidableEq, Repr

/-- Model of `MessageEncrypter::encrypt for Tls13Cipher` (`aead.rs` lines 57-89):
append the one-byte content-type trailer to the plaintext, derive the
per-record nonce, compute the AAD from the declared total length, seal in
place into the pre-sized buffer, and wrap the result as an encrypted record
with content type application data (23) and legacy version TLS 1.2
(bytes 3, 3). -/
def Tls13Cipher.encrypt (prim : AeadPrim) (iv : List Nat) (typ : Nat)
    (payload : List Nat) (seq : Nat) : OutboundRecord :=
  { typ := 23
    version := (3, 3)
    payload := prim.sealFn (nonceOf iv seq)
      (make_tls13_aad (encrypted_payload_len payload.length))
      (payload ++ [typ]) }

/-- rustls `unpad_tls13_payload`: strip trailing zero padding; the last
remaining byte is the inner content type (an empty result means content
type 0, the illegal marker), the rest is the inner payload. -/
def unpad_tls13 (p : List Nat) : Nat × List Nat :=
  match ((p.reverse.dropWhile fun b => b == 0).reverse).getLast? with
  | none => (0, [])
  | some t => (t, ((p.reverse.dropWhile fun b => b == 0).reverse).dropLast)

/-- rustls `InboundOpaqueMessage::into_tls13_unpadded_message`, as invoked
by the decrypt of the adapter; error values are shown after the repository
`From<rustls::Error> for TlsError` mapping (`error.rs`): both an illegal
inner plaintext (`PeerMisbehaved`) and an oversized inner payload
(`PeerSentOversizedRecord`) map to `HandshakeFailed`. -/
def into_tls13_unpadded_message (pt : List Nat) : Except TlsError (Nat × List Nat) :=
  if (unpad_tls13 pt).1 = 0 then .error .HandshakeFailed
  else if (unpad_tls13 pt).2.length > MAX_FRAGMENT_LEN then .error .HandshakeFailed
  else .ok (unpad_tls13 pt)

/-- Model of `MessageDecrypter::decrypt for Tls13Cipher` (`aead.rs` lines 91-110):
derive the same per-record nonce, recompute the AAD from the received
payload length, open in place (a failed tag check maps to `DecryptError`),
then strip the tag and unpad to recover content type and plaintext. -/
def Tls13Cipher.decrypt (prim : AeadPrim) (iv : List Nat)
    (record : List Nat) (seq : Nat) : Except TlsError (Nat × List Nat) :=
  match prim.openA (nonceOf iv seq) (make_tls13_aad record.length) record with
  | none => .error .DecryptError
  | some pt => into_tls13_unpadded_message pt

theorem unpad_append_typ (payload : List Nat) (typ : Nat) (htyp : typ ≠ 0) :
    unpad_tls13 (payload ++ [typ]) = (typ, payload) := by
  unfold unpad_tls13
  have h1 : (payload ++ [typ]).reverse = typ :: payload.reverse := by simp
  rw [h1, List.dropWhile_cons]
  have h2 : (typ == 0) = false := by simp [htyp]
  rw [h2]
  simp

/-- Claim C9: a successful adapter encrypt yields an encrypted record whose
encrypted payload length equals plaintext length + 1 (content-type
trailer) + 16 (authentication tag), with record content type application
data and legacy record version TLS 1.2. -/
theorem encrypt_output_shape (prim : AeadPrim) (iv : List Nat) (typ : Nat)
    (payload : List Nat) (seq : Nat) :
    (Tls13Cipher.encrypt prim iv typ payload seq).payload.length =
      payload.length + 1 + 16 ∧
    (Tls13Cipher.encrypt prim iv typ payload seq).typ = 23 ∧
    (Tls13Cipher.encrypt prim iv typ payload seq).version = (3, 3) := by
  refine ⟨?_, rfl, rfl⟩
  unfold Tls13Cipher.encrypt
  dsimp only
  rw [prim.seal_len]
  simp

/-- Claim C2: round trip through the AEAD adapter.  For every primitive
satisfying the AEAD interface contract, every base IV, every sequence
number, every content type byte `typ ≠ 0` (TLS inner content types are
nonzero; zero is the padding byte) and every plaintext of length up to the
maximum record size, decrypting the record produced by encrypt with the
same key/base IV and sequence number returns exactly the plaintext, with
the appended content-type trailer stripped during unpadding. -/
theorem aead_round_trip (prim : AeadPrim) (iv : List Nat) (typ : Nat)
    (payload : List Nat) (seq : Nat) (htyp : typ ≠ 0)
    (hlen : payload.length ≤ MAX_FRAGMENT_LEN) :
    Tls13Cipher.decrypt prim iv
      (Tls13Cipher.encrypt prim iv typ payload seq).payload seq =
      .ok (typ, payload) := by
  unfold Tls13Cipher.decrypt Tls13Cipher.encrypt
  dsimp only
  rw [prim.seal_len]
  have haad : (payload ++ [typ]).length + 16 = encrypted_payload_len payload.length := by
    simp [encrypted_payload_len, AES_GCM_OVERHEAD]
  rw [haad, prim.open_seal]
  unfold into_tls13_unpadded_message
  dsimp only
  rw [unpad_append_typ payload typ htyp]
  rw [if_neg htyp, if_neg (by simpa using hlen)]

/-- A toy AEAD primitive satisfying the interface contract, used to
instantiate the adapter theorems at concrete inputs: the "tag" is 16 bytes
derived from nonce and AAD, appended on seal and checked/stripped on
open. -/
def toySeal (n a p : List Nat) : List Nat :=
  p ++ (n ++ a ++ List.replicate 16 0).take 16

/-- Opening counterpart of `toySeal`. -/
def toyOpen (n a c : List Nat) : Option (List Nat) :=
  if 16 ≤ c.length ∧
      c.drop (c.length - 16) = (n ++ a ++ List.replicate 16 0).take 16 then
    some (c.take (c.length - 16))
  else none

theorem toySeal_len (n a p : List Nat) : (toySeal n a p).length = p.length + 16 := by
  unfold toySeal
  simp only [List.length_append, List.length_take, List.length_replicate]
  omega

theorem toyOpen_seal (n a p : List Nat) : toyOpen n a (toySeal n a p) = some p := by
  have hlen := toySeal_len n a p
  unfold toyOpen
  rw [if_pos]
  · rw [hlen, Nat.add_sub_cancel]
    unfold toySeal
    rw [List.take_left]
  · constructor
    · omega
    · rw [hlen, Nat.add_sub_cancel]
      unfold toySeal
      rw [List.drop_left]

/-- The toy primitive packaged with its contract proofs. -/
def toyAead : AeadPrim :=
  ⟨toySeal, toyOpen, toySeal_len, toyOpen_seal⟩

/-- Claim C2 witness: the round trip at a concrete plaintext, sequence
number and primitive. -/
theorem aead_round_trip_witness :
    Tls13Cipher.decrypt toyAead (List.replicate 12 0)
      (Tls13Cipher.encrypt toyAead (List.replicate 12 0) 23 [104, 105] 7).payload 7 =
      .ok (23, [104, 105]) :=
  aead_round_trip toyAead (List.replicate 12 0) 23 [104, 105] 7
    (by decide) (by decide)

/-- Claim C9 witness: the output shape at a concrete input. -/
theorem encrypt_output_shape_witness :
    (Tls13Cipher.encrypt toyAead (List.replicate 12 0) 23 [104, 105] 7).payload.length =
      2 + 1 + 16 ∧
    (Tls13Cipher.encrypt toyAead (List.replicate 12 0) 23 [104, 105] 7).typ = 23 ∧
    (Tls13Cipher.encrypt toyAead (List.replicate 12 0) 23 [104, 105] 7).version = (3, 3) :=
  encrypt_output_shape toyAead (List.replicate 12 0) 23 [104, 105] 7

end SvsmTls
